import Mathlib

/-!
Shallow embedding of the vote-ingestion service in src/vote/app.py.

The Flask application keeps process-wide mutable state (the session count,
the labelled Prometheus vote counters, the dependency-status gauges and the
database-row gauges) and talks to two external dependencies: a Redis queue
store (list `votes`) and a PostgreSQL relational store (table `votes`).
We model the mutable state as an explicit `AppState` record that every
handler threads through, the Redis list as a `List (String × String)` of
serialized `(voter_id, vote)` events, and the outcome of the dependency
calls as explicit parameters: a `Bool` for whether the Redis
connect/ping/rpush sequence succeeds, and a `DbResult` for the PostgreSQL
connect/query sequence (connection failure, query failure, or the grouped
rows returned by `SELECT vote, COUNT(*) FROM votes GROUP BY vote`).
Exceptions in the Python code become branches on these parameters, placed
exactly where the `try`/`except` blocks catch them.
-/

/-- Python `hex(n)` for a natural number: the prefix `0x` followed by the
lowercase hexadecimal digits (with `hex(0) = "0x0"`). -/
def pyHex (n : Nat) : String :=
  "0x" ++ String.mk (Nat.toDigits 16 n)

/-- Embedding of `hex(random.getrandbits(64))[2:-1]` (app.py line 162) as a
function of the drawn 64-bit value: Python slicing `[2:-1]` removes the two
leading characters `0x` and the final character of the string. -/
def voterIdToken (n : Nat) : String :=
  ((pyHex n).drop 2).dropRight 1

/-- The process-wide mutable state of app.py: the `session_count` global,
the `active_sessions` gauge, the three label cells of the `votes_total`
counter (labels `a`, `b`, `unknown`), the contents of the Redis `votes`
list, the two dependency-status gauges, and the three database-row gauges
(`database_votes_by_option{option="a"}`, `...{option="b"}`,
`total_votes_in_database`). Gauge values are modelled as naturals since the
code only ever stores counts and the values 0/1 in them. -/
structure AppState where
  sessionCount : Nat
  activeSessions : Nat
  countA : Nat
  countB : Nat
  countUnknown : Nat
  redisVotes : List (String × String)
  redisStatus : Nat
  dbStatus : Nat
  catsGauge : Nat
  dogsGauge : Nat
  totalGauge : Nat
deriving DecidableEq

/-- State at process start: counters and gauges at zero, empty queue. -/
def initState : AppState :=
  { sessionCount := 0, activeSessions := 0, countA := 0, countB := 0,
    countUnknown := 0, redisVotes := [], redisStatus := 0, dbStatus := 0,
    catsGauge := 0, dogsGauge := 0, totalGauge := 0 }

/-- Outcome of one `get_pg_conn()`/query sequence: the connection attempt
fails (`psycopg2.connect` raises, caught inside `get_pg_conn` which returns
`None`), the query raises after a successful connect, or the query returns
the grouped rows `(vote, count)`. -/
inductive DbResult where
  | noConn
  | queryError
  | ok (rows : List (String × Nat))
deriving DecidableEq

/-- The aggregation loop shared verbatim by `update_database_metrics`
(app.py lines 114-123) and `stats` (lines 224-232): accumulate `total`,
and overwrite `cats`/`dogs` with the count of a row whose vote key is
`"a"`/`"b"`. The accumulator is `(total, cats, dogs)`. -/
def aggLoop : List (String × Nat) → Nat × Nat × Nat → Nat × Nat × Nat
  | [], acc => acc
  | (v, c) :: rest, (total, cats, dogs) =>
      let total := total + c
      if v = "a" then aggLoop rest (total, c, dogs)
      else if v = "b" then aggLoop rest (total, cats, c)
      else aggLoop rest (total, cats, dogs)

/-- Run the aggregation loop from `(0, 0, 0)` over the grouped rows. -/
def aggregate (rows : List (String × Nat)) : Nat × Nat × Nat :=
  aggLoop rows (0, 0, 0)

/-- Semantics of `SELECT vote, COUNT(*) FROM votes GROUP BY vote;` over the
multiset of vote rows stored in the relational store: one `(value, count)`
pair per distinct stored vote value. -/
def groupRows (votes : List String) : List (String × Nat) :=
  votes.dedup.map (fun v => (v, votes.count v))

/-- `update_database_metrics` (app.py lines 104-138). On connection
failure `get_pg_conn` sets the database gauge to 0 and returns `None`, so
the `if conn:` body is skipped; on a query error the exception is caught
at line 136 and the database gauge is set to 0; in both failure cases the
three database-row gauges keep their previous values. On success the
gauges receive the freshly aggregated counts. -/
def update_database_metrics (st : AppState) (db : DbResult) : AppState :=
  match db with
  | DbResult.noConn => { st with dbStatus := 0 }
  | DbResult.queryError => { st with dbStatus := 0 }
  | DbResult.ok rows =>
      let r := aggregate rows
      { st with
        dbStatus := 1, catsGauge := r.2.1, dogsGauge := r.2.2,
        totalGauge := r.1 }

/-- The observable intermediate states of the successful publication path
of `update_database_metrics` (app.py lines 97 and 126-128): the database
status gauge is set to 1 inside `get_pg_conn`, then the three database-row
gauges are written by three separate `.set` calls — option `a`, option
`b`, then the total. Each list element is the shared state after one more
atomic gauge write, as a concurrent reader could observe it. -/
def publishStates (st : AppState) (rows : List (String × Nat)) : List AppState :=
  let r := aggregate rows
  let s0 := { st with dbStatus := 1 }
  let s1 := { s0 with catsGauge := r.2.1 }
  let s2 := { s1 with dogsGauge := r.2.2 }
  let s3 := { s2 with totalGauge := r.1 }
  [s0, s1, s2, s3]

/-- Session resolution in `hello` (app.py lines 160-164):
`request.cookies.get('voter_id')` yields the cookie or `None`, and
`if not voter_id:` treats both `None` and the empty string as absent, in
which case a fresh token is drawn, `session_count` is incremented and the
`active_sessions` gauge is set to the new count. Returns the resolved
voter id together with the updated state. -/
def resolveSession (st : AppState) (cookie : Option String) (rand64 : Nat) :
    String × AppState :=
  match cookie with
  | none =>
      (voterIdToken rand64,
        { st with
          sessionCount := st.sessionCount + 1,
          activeSessions := st.sessionCount + 1 })
  | some s =>
      if s = "" then
        (voterIdToken rand64,
          { st with
            sessionCount := st.sessionCount + 1,
            activeSessions := st.sessionCount + 1 })
      else (s, st)

/-- Vote-type resolution (app.py line 177): `'a' if vote == 'a' else 'b'
if vote == 'b' else 'unknown'`. -/
def voteTypeOf (v : String) : String :=
  if v = "a" then "a" else if v = "b" then "b" else "unknown"

/-- `votes_counter.labels(vote_type=...).inc()` (app.py line 183). -/
def incCounter (st : AppState) (t : String) : AppState :=
  if t = "a" then { st with countA := st.countA + 1 }
  else if t = "b" then { st with countB := st.countB + 1 }
  else { st with countUnknown := st.countUnknown + 1 }

/-- The rendered page response of the `/` route: HTTP status, the two
option labels passed to the template, the `vote` template variable, and
the `voter_id` cookie set on the response (app.py lines 194-202). -/
structure PageResponse where
  status : Nat
  optionA : String
  optionB : String
  voteShown : Option String
  cookie : String
deriving DecidableEq

/-- The `/` route handler `hello` (app.py lines 156-202). Inputs beyond
the state: the incoming cookie, the 64-bit random draw used if a token
must be generated, whether the request is a POST, whether the Redis
connect/ping/rpush sequence succeeds, the form field `vote` (`none` when
the form lacks it, in which case `request.form['vote']` raises), the
outcome of the forced `update_database_metrics()` call, and the two
configured option labels. Any exception inside the POST `try` block is
caught at line 190, which sets the Redis status gauge to 0; the handler
then falls through to render the normal page with status 200 and set the
`voter_id` cookie. -/
def hello (st : AppState) (cookie : Option String) (rand64 : Nat)
    (isPost : Bool) (redisOk : Bool) (formVote : Option String)
    (db : DbResult) (oa ob : String) : AppState × PageResponse :=
  let p := resolveSession st cookie rand64
  let voter_id := p.1
  let st1 := p.2
  let q : Option String × AppState :=
    if isPost then
      if redisOk then
        match formVote with
        | none => (none, { st1 with redisStatus := 0 })
        | some v =>
            let st2 := { st1 with redisStatus := 1 }
            let st3 := { st2 with redisVotes := st2.redisVotes ++ [(voter_id, v)] }
            let st4 := incCounter st3 (voteTypeOf v)
            let st5 := update_database_metrics st4 db
            (some v, st5)
      else (none, { st1 with redisStatus := 0 })
    else (none, st1)
  (q.2,
   { status := 200, optionA := oa, optionB := ob, voteShown := q.1,
     cookie := voter_id })

/-- The JSON body returned by `GET /stats` (app.py lines 242-247). -/
structure StatsResponse where
  total_votes : Nat
  cats_votes : Nat
  dogs_votes : Nat
  option_a : String
  option_b : String
deriving DecidableEq

/-- The `/stats` handler (app.py lines 215-247): it reconnects and re-runs
the grouped count on every call. On connection failure `get_pg_conn` sets
the database gauge to 0 and returns `None`, and the `else` branch zeroes
all three counts; on a query error the gauge was already set to 1 by
`get_pg_conn` and the `except` at line 237 zeroes the counts without
touching the gauge. The configured option labels are always attached. -/
def stats (st : AppState) (oa ob : String) (db : DbResult) :
    AppState × StatsResponse :=
  match db with
  | DbResult.noConn =>
      ({ st with dbStatus := 0 },
       { total_votes := 0, cats_votes := 0, dogs_votes := 0,
         option_a := oa, option_b := ob })
  | DbResult.queryError =>
      ({ st with dbStatus := 1 },
       { total_votes := 0, cats_votes := 0, dogs_votes := 0,
         option_a := oa, option_b := ob })
  | DbResult.ok rows =>
      let r := aggregate rows
      ({ st with dbStatus := 1 },
       { total_votes := r.1, cats_votes := r.2.1, dogs_votes := r.2.2,
         option_a := oa, option_b := ob })

/-- The JSON body returned by `GET /healthz` (app.py lines 273-279). -/
structure HealthResponse where
  status : String
  service : String
  hostname : String
  redis : String
  database : String
deriving DecidableEq

/-- The `/healthz` handler (app.py lines 249-279): probe Redis (connect
and ping) and PostgreSQL (connect) independently, record each probe in
its status gauge, report each as `OK`/`FAILED`, and always return the
top-level `status` field as `OK`. -/
def healthz (st : AppState) (host : String) (redisOk dbOk : Bool) :
    AppState × HealthResponse :=
  let r : String × Nat := if redisOk then ("OK", 1) else ("FAILED", 0)
  let d : String × Nat := if dbOk then ("OK", 1) else ("FAILED", 0)
  ({ st with redisStatus := r.2, dbStatus := d.2 },
   { status := "OK", service := "vote-service", hostname := host,
     redis := r.1, database := d.1 })

/-- Stale published snapshot used to exercise the `/stats` failure path:
the database-row gauges hold a previously published consistent snapshot. -/
def staleStatsState : AppState :=
  { initState with catsGauge := 3, dogsGauge := 2, totalGauge := 5 }

/-- Previously published consistent snapshot used to exercise the
publication sequence of the aggregation cycle. -/
def snapshotC9 : AppState :=
  { initState with catsGauge := 3, dogsGauge := 2, totalGauge := 5 }

/-- Intermediate shared state during publication of the new snapshot
`(6, 4, 2)` over `snapshotC9`: both per-option gauges already carry the
new values while the total gauge still carries the old one. -/
def midC9 : AppState :=
  { snapshotC9 with dbStatus := 1, catsGauge := 4, dogsGauge := 2 }

/-- A vote list whose distinct values all lie in the two configured keys
has a deduplicated value list of one of five shapes. -/
lemma nodup_ab (l : List String) (h : ∀ v ∈ l, v = "a" ∨ v = "b")
    (hn : l.Nodup) :
    l = [] ∨ l = ["a"] ∨ l = ["b"] ∨ l = ["a", "b"] ∨ l = ["b", "a"] := by
  match l with
  | [] => exact Or.inl rfl
  | [x] => rcases h x (by simp) with h1 | h1 <;> subst h1 <;> simp
  | [x, y] =>
      rcases h x (by simp) with h1 | h1 <;> rcases h y (by simp) with h2 | h2 <;>
        subst h1 <;> subst h2 <;> simp_all
  | x :: y :: z :: rest =>
      exfalso
      rcases h x (by simp) with h1 | h1 <;> rcases h y (by simp) with h2 | h2 <;>
        subst h1 <;> subst h2 <;> simp_all <;> rcases h.1 with h3 | h3 <;> simp_all

/-- Over grouped rows whose keys all lie in the two configured option
keys, the aggregation loop yields a total equal to the sum of the two
attributed buckets. -/
lemma aggregate_groupRows_sum (votes : List String)
    (h : ∀ v ∈ votes, v = "a" ∨ v = "b") :
    (aggregate (groupRows votes)).1
      = (aggregate (groupRows votes)).2.1 + (aggregate (groupRows votes)).2.2 := by
  have hd : ∀ v ∈ votes.dedup, v = "a" ∨ v = "b" :=
    fun v hv => h v (List.mem_dedup.mp hv)
  rcases nodup_ab votes.dedup hd votes.nodup_dedup with h0 | h0 | h0 | h0 | h0 <;>
    simp [groupRows, aggregate, aggLoop, h0] <;> omega

/-- The aggregation-cycle update never touches the Redis vote list, the
live vote counters, the session counter, or the Redis status gauge. -/
lemma udm_preserves_votes (st : AppState) (db : DbResult) :
    (update_database_metrics st db).redisVotes = st.redisVotes
    ∧ (update_database_metrics st db).countA = st.countA
    ∧ (update_database_metrics st db).countB = st.countB
    ∧ (update_database_metrics st db).countUnknown = st.countUnknown
    ∧ (update_database_metrics st db).sessionCount = st.sessionCount
    ∧ (update_database_metrics st db).redisStatus = st.redisStatus := by
  cases db <;> simp [update_database_metrics]

/-- C1: in every published snapshot computed over a relational store whose
vote values are all among the two configured keys, the total equals the
sum of the two per-option counts — both in the aggregator's gauge
publication and in the `/stats` response. -/
theorem C1_sum_invariant (st : AppState) (votes : List String)
    (h : ∀ v ∈ votes, v = "a" ∨ v = "b") :
    ((update_database_metrics st (DbResult.ok (groupRows votes))).totalGauge
      = (update_database_metrics st (DbResult.ok (groupRows votes))).catsGauge
        + (update_database_metrics st (DbResult.ok (groupRows votes))).dogsGauge)
    ∧ ((stats st "Cats" "Dogs" (DbResult.ok (groupRows votes))).2.total_votes
      = (stats st "Cats" "Dogs" (DbResult.ok (groupRows votes))).2.cats_votes
        + (stats st "Cats" "Dogs" (DbResult.ok (groupRows votes))).2.dogs_votes) := by
  have key := aggregate_groupRows_sum votes h
  constructor <;> simpa [update_database_metrics, stats] using key

/-- C1 witness: the sum invariant holds concretely for the store contents
`a, b, a`. -/
theorem C1_sum_invariant_witness :
    (update_database_metrics initState (DbResult.ok (groupRows ["a", "b", "a"]))).totalGauge
      = (update_database_metrics initState (DbResult.ok (groupRows ["a", "b", "a"]))).catsGauge
        + (update_database_metrics initState (DbResult.ok (groupRows ["a", "b", "a"]))).dogsGauge :=
  (C1_sum_invariant initState ["a", "b", "a"] (by decide)).1

/-- C1 counterexample: a relational store holding one vote row with the
unrecognized value `c` yields a published snapshot with total 1 but both
per-option counts 0, so the sum invariant fails over an arbitrary multiset
of vote rows. -/
theorem C1_counterexample :
    ¬ ((update_database_metrics initState (DbResult.ok (groupRows ["c"]))).totalGauge
      = (update_database_metrics initState (DbResult.ok (groupRows ["c"]))).catsGauge
        + (update_database_metrics initState (DbResult.ok (groupRows ["c"]))).dogsGauge) := by
  decide

/-- C2 counterexample: a POST with the unrecognized option `c` (queue
reachable) is not rejected — the serialized event is appended to the
Redis vote list and the `unknown` label of the vote counter is
incremented. -/
theorem C2_counterexample :
    (hello initState (some "x") 0 true true (some "c") DbResult.noConn
      "Cats" "Dogs").1.redisVotes = [("x", "c")]
    ∧ (hello initState (some "x") 0 true true (some "c") DbResult.noConn
        "Cats" "Dogs").1.countUnknown = initState.countUnknown + 1 := by
  decide

/-- C2 amended: a POST whose option matches neither configured key is
still appended to the queue store's vote list and increments the
`unknown` vote counter (the per-option counters are untouched); it is not
rejected. -/
theorem C2_unknown_vote_still_queued (st : AppState) (s v : String) (r : Nat)
    (db : DbResult) (oa ob : String) (hs : s ≠ "") (ha : v ≠ "a") (hb : v ≠ "b") :
    (hello st (some s) r true true (some v) db oa ob).1.redisVotes
      = st.redisVotes ++ [(s, v)]
    ∧ (hello st (some s) r true true (some v) db oa ob).1.countUnknown
        = st.countUnknown + 1
    ∧ (hello st (some s) r true true (some v) db oa ob).1.countA = st.countA
    ∧ (hello st (some s) r true true (some v) db oa ob).1.countB = st.countB := by
  have hvt : voteTypeOf v = "unknown" := by simp [voteTypeOf, ha, hb]
  cases db <;>
    simp [hello, resolveSession, if_neg hs, hvt, incCounter,
      update_database_metrics]

/-- C2 witness: the amended behaviour at the concrete invalid option
`c`. -/
theorem C2_unknown_vote_still_queued_witness :
    (hello initState (some "x") 5 true true (some "c") DbResult.noConn
      "Cats" "Dogs").1.redisVotes = initState.redisVotes ++ [("x", "c")]
    ∧ (hello initState (some "x") 5 true true (some "c") DbResult.noConn
        "Cats" "Dogs").1.countUnknown = initState.countUnknown + 1
    ∧ (hello initState (some "x") 5 true true (some "c") DbResult.noConn
        "Cats" "Dogs").1.countA = initState.countA
    ∧ (hello initState (some "x") 5 true true (some "c") DbResult.noConn
        "Cats" "Dogs").1.countB = initState.countB :=
  C2_unknown_vote_still_queued initState "x" "c" 5 DbResult.noConn "Cats" "Dogs"
    (by decide) (by decide) (by decide)

/-- C3: when the Redis connect/publish sequence fails during a POST, the
exception is caught, the Redis status gauge is set to down, nothing is
appended to the vote list, no vote counter is incremented, and the
handler still returns the normal page with status 200. -/
theorem C3_publish_failure_is_quiet (st : AppState) (cookie : Option String)
    (r : Nat) (formVote : Option String) (db : DbResult) (oa ob : String) :
    (hello st cookie r true false formVote db oa ob).1.redisVotes = st.redisVotes
    ∧ (hello st cookie r true false formVote db oa ob).1.countA = st.countA
    ∧ (hello st cookie r true false formVote db oa ob).1.countB = st.countB
    ∧ (hello st cookie r true false formVote db oa ob).1.countUnknown = st.countUnknown
    ∧ (hello st cookie r true false formVote db oa ob).1.redisStatus = 0
    ∧ (hello st cookie r true false formVote db oa ob).2.status = 200 := by
  rcases cookie with _ | s
  · simp [hello, resolveSession]
  · by_cases h : s = "" <;> simp [hello, resolveSession, h]

/-- C4: when the relational-store connection or query fails during an
aggregation cycle, the three database-row gauges keep their previous
values and the database status gauge reports down. -/
theorem C4_store_failure_preserves_snapshot (st : AppState) :
    ((update_database_metrics st DbResult.noConn).catsGauge = st.catsGauge
      ∧ (update_database_metrics st DbResult.noConn).dogsGauge = st.dogsGauge
      ∧ (update_database_metrics st DbResult.noConn).totalGauge = st.totalGauge
      ∧ (update_database_metrics st DbResult.noConn).dbStatus = 0)
    ∧ ((update_database_metrics st DbResult.queryError).catsGauge = st.catsGauge
      ∧ (update_database_metrics st DbResult.queryError).dogsGauge = st.dogsGauge
      ∧ (update_database_metrics st DbResult.queryError).totalGauge = st.totalGauge
      ∧ (update_database_metrics st DbResult.queryError).dbStatus = 0) := by
  simp [update_database_metrics]

/-- C5: for every combination of dependency reachability, `/healthz`
returns top-level status `OK` while the `redis` and `database` sub-fields
independently report `OK` or `FAILED` according to their probes. -/
theorem C5_healthz_always_ok (st : AppState) (host : String)
    (redisOk dbOk : Bool) :
    (healthz st host redisOk dbOk).2.status = "OK"
    ∧ (healthz st host redisOk dbOk).2.redis
        = (if redisOk then "OK" else "FAILED")
    ∧ (healthz st host redisOk dbOk).2.database
        = (if dbOk then "OK" else "FAILED") := by
  cases redisOk <;> cases dbOk <;> simp [healthz]

/-- C6 counterexample: the token generator can issue the empty string
(`hex(0)[2:-1] = ""`), and a request carrying that issued token back is
treated as token-less — the distinct-session counter is incremented, so
resolution is not idempotent for every existing token. -/
theorem C6_counterexample :
    voterIdToken 0 = ""
    ∧ (resolveSession initState (some (voterIdToken 0)) 1).2.sessionCount
        = initState.sessionCount + 1 := by
  decide

/-- C6 amended: session resolution is idempotent for every nonempty
incoming token — the token is returned unchanged, echoed as the response
cookie, and the session counter is not incremented; a fresh token is
generated and the counter incremented when the incoming token is absent
(or empty, which the falsy check treats as absent). -/
theorem C6_session_idempotent (st : AppState) (s : String) (r : Nat)
    (db : DbResult) (oa ob : String) (h : s ≠ "") :
    resolveSession st (some s) r = (s, st)
    ∧ (hello st (some s) r false true none db oa ob).2.cookie = s
    ∧ (hello st (some s) r false true none db oa ob).1.sessionCount
        = st.sessionCount
    ∧ (resolveSession st none r).1 = voterIdToken r
    ∧ (resolveSession st none r).2.sessionCount = st.sessionCount + 1 := by
  refine ⟨?_, ?_, ?_, ?_, ?_⟩ <;> simp [resolveSession, hello, h]

/-- C6 witness: idempotence at the concrete token `deadbeef`. -/
theorem C6_session_idempotent_witness :
    resolveSession initState (some "deadbeef") 7 = ("deadbeef", initState)
    ∧ (hello initState (some "deadbeef") 7 false true none DbResult.noConn
        "Cats" "Dogs").2.cookie = "deadbeef"
    ∧ (hello initState (some "deadbeef") 7 false true none DbResult.noConn
        "Cats" "Dogs").1.sessionCount = initState.sessionCount
    ∧ (resolveSession initState none 7).1 = voterIdToken 7
    ∧ (resolveSession initState none 7).2.sessionCount
        = initState.sessionCount + 1 :=
  C6_session_idempotent initState "deadbeef" 7 DbResult.noConn "Cats" "Dogs"
    (by decide)

/-- C7: the map from the drawn 64-bit value to the issued token is not
injective — the distinct draws 0 and 1 (both below 2 to the power 64)
produce the same token, because the slice drops the final hex digit. -/
theorem C7_token_collision :
    (0 : Nat) < 2 ^ 64 ∧ (1 : Nat) < 2 ^ 64 ∧ (0 : Nat) ≠ 1
    ∧ voterIdToken 0 = voterIdToken 1 := by
  decide

/-- C8 counterexample: with a previously published snapshot of total 5 in
the gauges and the relational store unreachable, `/stats` answers total 0
— it does not return the latest published snapshot. -/
theorem C8_counterexample :
    staleStatsState.totalGauge = 5
    ∧ (stats staleStatsState "Cats" "Dogs" DbResult.noConn).2.total_votes = 0
    ∧ (stats staleStatsState "Cats" "Dogs" DbResult.noConn).2.total_votes
        ≠ staleStatsState.totalGauge := by
  decide

/-- C8 amended: `/stats` recomputes the aggregate directly from the
relational store on every call and always attaches the two configured
option display names; when the store is unreachable or the query fails it
returns zeroed counts rather than the previously published snapshot. -/
theorem C8_stats_recomputes (st : AppState) (oa ob : String)
    (rows : List (String × Nat)) :
    ((stats st oa ob (DbResult.ok rows)).2.total_votes = (aggregate rows).1
      ∧ (stats st oa ob (DbResult.ok rows)).2.cats_votes = (aggregate rows).2.1
      ∧ (stats st oa ob (DbResult.ok rows)).2.dogs_votes = (aggregate rows).2.2
      ∧ (stats st oa ob (DbResult.ok rows)).2.option_a = oa
      ∧ (stats st oa ob (DbResult.ok rows)).2.option_b = ob)
    ∧ ((stats st oa ob DbResult.noConn).2.total_votes = 0
      ∧ (stats st oa ob DbResult.noConn).2.cats_votes = 0
      ∧ (stats st oa ob DbResult.noConn).2.dogs_votes = 0
      ∧ (stats st oa ob DbResult.noConn).2.option_a = oa
      ∧ (stats st oa ob DbResult.noConn).2.option_b = ob)
    ∧ ((stats st oa ob DbResult.queryError).2.total_votes = 0
      ∧ (stats st oa ob DbResult.queryError).2.option_a = oa
      ∧ (stats st oa ob DbResult.queryError).2.option_b = ob) := by
  simp [stats]

/-- C9 counterexample: publishing the new snapshot `(6, 4, 2)` over the
previously published `(5, 3, 2)` passes through the observable shared
state `midC9`, in which the per-option gauges already hold the new values
while the total gauge still holds the old one — a concurrent reader can
observe a mixture that matches neither snapshot and violates the sum
invariant. -/
theorem C9_counterexample :
    midC9 ∈ publishStates snapshotC9 [("a", 4), ("b", 2)]
    ∧ midC9.catsGauge ≠ snapshotC9.catsGauge
    ∧ midC9.totalGauge
        ≠ (update_database_metrics snapshotC9
            (DbResult.ok [("a", 4), ("b", 2)])).totalGauge
    ∧ midC9.totalGauge ≠ midC9.catsGauge + midC9.dogsGauge := by
  decide

/-- C9 amended: the aggregation cycle publishes the snapshot through a
sequence of separate single-gauge writes, not one atomic swap: the state
after the last write equals the full update, but the state just before
the total gauge is written carries the new per-option values together
with the old total. -/
theorem C9_fieldwise_publish (st : AppState) (rows : List (String × Nat)) :
    (publishStates st rows).getLast?
      = some (update_database_metrics st (DbResult.ok rows))
    ∧ (publishStates st rows).get? 2
      = some { st with
               dbStatus := 1, catsGauge := (aggregate rows).2.1,
               dogsGauge := (aggregate rows).2.2 } := by
  exact ⟨rfl, rfl⟩

/-- C10: a POST whose form lacks the `vote` field (queue reachable) takes
the same degraded path as a queue outage: the exception is swallowed, the
Redis status gauge ends at down, nothing is queued, no vote counter is
incremented, and the normal page is returned with status 200 and no vote
shown. -/
theorem C10_missing_vote_field_degrades (st : AppState) (cookie : Option String)
    (r : Nat) (db : DbResult) (oa ob : String) :
    (hello st cookie r true true none db oa ob).1.redisVotes = st.redisVotes
    ∧ (hello st cookie r true true none db oa ob).1.countA = st.countA
    ∧ (hello st cookie r true true none db oa ob).1.countB = st.countB
    ∧ (hello st cookie r true true none db oa ob).1.countUnknown = st.countUnknown
    ∧ (hello st cookie r true true none db oa ob).1.redisStatus = 0
    ∧ (hello st cookie r true true none db oa ob).2.status = 200
    ∧ (hello st cookie r true true none db oa ob).2.voteShown = none := by
  rcases cookie with _ | s
  · simp [hello, resolveSession]
  · by_cases h : s = "" <;> simp [hello, resolveSession, h]
